import Mathlib

/-!
Verification of the `ospd-netstat` wrapper (`ospd_netstat/wrapper.py`).

The wrapper runs `netstat -tlpn` on a target host through an external
transport, parses the output for IPv4 TCP listeners bound to `0.0.0.0`,
and emits findings (scan logs, scan errors, host details) to an external
sink.  We embed the parsing and collection logic of
`OSPDnetstat.exec_scan` shallowly:

* a line of output is a Lean `String`; the whole command result is
  `Option (List String)` (`none` models Python `None`, the transport
  failure marker);
* the sink is modelled by the ordered list of findings the call emits;
* Python `list` indexing, which raises `IndexError` when out of range,
  is modelled in the `Except PyErr` monad;
* scan-option values are modelled as integers: the wrapper declares its
  single `dumptable` parameter as a boolean with default `0`
  (`OSPD_PARAMS`), i.e. booleans travel as the integers 0/1, and the
  source tests `dump is 1`, identity with the interned literal `1`,
  which on integer values coincides with equality to `1`.
-/

/-- Python exceptions that the embedded code can raise.  The only one
reachable in this fragment is `IndexError` (out-of-range list index). -/
inductive PyErr
  | indexError
deriving DecidableEq, Repr

/-- Split a list of characters at every character satisfying `p`,
keeping empty segments, as Python `str.split(sep)` does for a
one-character separator.  For example splitting `"a::b"` at a colon
gives `["a", "", "b"]` and splitting `""` gives `[""]`. -/
def splitBy (p : Char → Bool) : List Char → List (List Char)
  | [] => [[]]
  | c :: cs =>
    let r := splitBy p cs
    if p c then [] :: r else (c :: r.headD []) :: r.tail

/-- Characters Python `str.split()` (no argument) treats as whitespace
in ASCII text. -/
def isPySpace (c : Char) : Bool :=
  c = ' ' || c = '\t' || c = '\n' || c = '\x0b' || c = '\x0c' || c = '\r'

/-- Python `line.split()`: split on runs of whitespace, discarding empty
fields (so leading/trailing whitespace contributes nothing). -/
def pySplitWS (s : String) : List String :=
  ((splitBy isPySpace s.toList).map String.mk).filter (fun w => decide (w ≠ ""))

/-- Python `word.split(":")`: split at every colon, keeping empty
segments. -/
def pyColonSplit (s : String) : List String :=
  (splitBy (fun c => c == ':') s.toList).map String.mk

/-- The field list of one output line, as computed by the source:
`words = ' '.join(line.split()).split()`. -/
def pyWords (line : String) : List String :=
  pySplitWS (String.intercalate " " (pySplitWS line))

/-- Python list indexing `xs[i]`: raises `IndexError` when `i` is out of
range (negative indices never occur in this code). -/
def pyIndex {α : Type} (xs : List α) (i : Nat) : Except PyErr α :=
  match xs[i]? with
  | some x => Except.ok x
  | none => Except.error PyErr.indexError

/-- One finding pushed to the external sink.  `scanLog` models
`add_scan_log(name=…, value=…, port=…)` (the wrapper passes either
`value` or `port`, never both), `scanError` models `add_scan_error`,
and `scanHostDetail` models `add_scan_host_detail`. -/
inductive Finding
  | scanLog (name : String) (value : Option String) (port : Option String)
  | scanError (value : String)
  | scanHostDetail (name : String) (value : String)
deriving DecidableEq, Repr

/-- One iteration of the parsing loop of `exec_scan`:

```python
words = ' '.join(line.split()).split()
if len(words) > 2 and words[0] == "tcp":
    port = words[3].split(":")[1]
    if words[3].split(":")[0] == '0.0.0.0':
        tcp_ports.append(port)
```

`words[0]` is guarded by `len(words) > 2` and cannot raise, so it is
rendered with `getD`; `words[3]` and `split(":")[1]` are unguarded and
modelled with `pyIndex`; `split(":")[0]` cannot raise because a split
always has at least one segment. -/
def parseStep (tcp_ports : List String) (line : String) : Except PyErr (List String) :=
  let words := pyWords line
  if 2 < words.length ∧ (words[0]?).getD "" = "tcp" then
    match pyIndex words 3 with
    | Except.error e => Except.error e
    | Except.ok w3 =>
      match pyIndex (pyColonSplit w3) 1 with
      | Except.error e => Except.error e
      | Except.ok port =>
        if ((pyColonSplit w3)[0]?).getD "" = "0.0.0.0" then
          Except.ok (tcp_ports ++ [port])
        else
          Except.ok tcp_ports
  else
    Except.ok tcp_ports

/-- The parsing loop: fold `parseStep` over the output lines starting
from the empty `tcp_ports` list, stopping at the first raised
exception. -/
def parsePortsAux : List String → List String → Except PyErr (List String)
  | acc, [] => Except.ok acc
  | acc, line :: rest =>
    match parseStep acc line with
    | Except.error e => Except.error e
    | Except.ok acc2 => parsePortsAux acc2 rest

/-- The complete parse of a non-`None` command result. -/
def parsePorts (lines : List String) : Except PyErr (List String) :=
  parsePortsAux [] lines

/-- Python `options.get(key)` on the scan-options dictionary:
`some` of the stored value, or `none` when the key is absent. -/
def dictGet (opts : List (String × Int)) (k : String) : Option Int :=
  match opts.find? (fun kv => kv.1 == k) with
  | some kv => some kv.2
  | none => none

/-- The summary-log text
`'Via Netstat %d open tcp ports were found that are bound to local address 0.0.0.0.' % len(tcp_ports)`. -/
def summaryValue (n : Nat) : String :=
  "Via Netstat " ++ toString n ++
    " open tcp ports were found that are bound to local address 0.0.0.0."

/-- The body of `OSPDnetstat.exec_scan`, with the transport call
abstracted into the `result` argument (the framework-provided
`run_command` is external to this repository).  Returns the ordered
list of findings pushed to the sink together with either the returned
status code or the exception that escaped.  When the parsing loop
raises, nothing has been emitted yet, because all emissions happen
after the loop (the two `add_scan_error` calls happen only in the
`result is None` branch). -/
def exec_scan (options : List (String × Int)) (result : Option (List String)) :
    List Finding × Except PyErr Nat :=
  let dump := dictGet options "dumptable"
  match result with
  | none =>
    ([Finding.scanError "A problem occurred trying to execute 'netstat'.",
      Finding.scanError "The result of 'netstat' was empty."],
     Except.ok 2)
  | some lines =>
    match parsePorts lines with
    | Except.error e => ([], Except.error e)
    | Except.ok tcp_ports =>
      ([Finding.scanLog "Netstat summary" (some (summaryValue tcp_ports.length)) none]
        ++ tcp_ports.map (fun p => Finding.scanLog "Netstat port" none (some (p ++ "/tcp")))
        ++ (if dump = some 1 then
              [Finding.scanLog "Netstat dump"
                (some ("Raw netstat output:\n\n" ++ String.join lines)) none]
            else [])
        ++ (if 0 < tcp_ports.length then
              [Finding.scanHostDetail "ports" (String.intercalate ", " tcp_ports),
               Finding.scanHostDetail "tcp_ports" (String.intercalate ", " tcp_ports)]
            else []),
       Except.ok 1)

/-- `OSPDnetstat.check` returns `True` unconditionally, reading no
state at all; the daemon state is abstracted by an arbitrary type. -/
def OSPDnetstat.check {α : Type} (_self : α) : Bool :=
  true

/-! ### Analysis-side definitions

These characterise the behaviour of the loop body line by line; they
are proved equal to the source-derived functions below. -/

/-- Whether the parsing loop raises `IndexError` on this line: the line
passes the candidate test (more than 2 fields, first field `"tcp"`) but
either has no fourth field or its fourth field contains no colon. -/
def lineAborts (line : String) : Bool :=
  let words := pyWords line
  if 2 < words.length ∧ (words[0]?).getD "" = "tcp" then
    match words[3]? with
    | none => true
    | some w3 => ((pyColonSplit w3)[1]?).isNone
  else false

/-- The ports this line appends to `tcp_ports` when it does not raise:
at most one. -/
def lineContrib (line : String) : List String :=
  let words := pyWords line
  if 2 < words.length ∧ (words[0]?).getD "" = "tcp" then
    match words[3]? with
    | none => []
    | some w3 =>
      match (pyColonSplit w3)[1]? with
      | none => []
      | some port =>
        if ((pyColonSplit w3)[0]?).getD "" = "0.0.0.0" then [port] else []
  else []

/-- All ports contributed by a list of lines, in order, with
multiplicity. -/
def specPorts : List String → List String
  | [] => []
  | l :: ls => lineContrib l ++ specPorts ls

/-- The text of the fourth field before its first colon. -/
def beforeFirstColon (s : String) : String :=
  String.mk (s.toList.takeWhile (fun c => !(c == ':')))

/-- The text of the fourth field between its first and second colons
(up to the end of the field when there is no second colon). -/
def betweenColons (s : String) : String :=
  String.mk (((s.toList.dropWhile (fun c => !(c == ':'))).drop 1).takeWhile (fun c => !(c == ':')))

/-- Whether the string contains a colon. -/
def hasColon (s : String) : Bool :=
  s.toList.any (fun c => c == ':')

/-- The qualifying condition of claim C4, stated in the words of the
spec: more than 2 whitespace-separated fields, first field exactly
`"tcp"`, and the component of the fourth field before the first colon
exactly `"0.0.0.0"`. -/
def c4cond (line : String) : Bool :=
  let words := pyWords line
  decide (2 < words.length ∧ (words[0]?).getD "" = "tcp" ∧
    beforeFirstColon ((words[3]?).getD "") = "0.0.0.0")

/-- The port text the code extracts from a line (second colon segment
of the fourth field). -/
def portTextOf (line : String) : String :=
  ((pyColonSplit (((pyWords line)[3]?).getD ""))[1]?).getD ""

/-- The findings `exec_scan` emits on the success path. -/
def okFindings (options : List (String × Int)) (lines : List String) : List Finding :=
  [Finding.scanLog "Netstat summary" (some (summaryValue (specPorts lines).length)) none]
    ++ (specPorts lines).map (fun p => Finding.scanLog "Netstat port" none (some (p ++ "/tcp")))
    ++ (if dictGet options "dumptable" = some 1 then
          [Finding.scanLog "Netstat dump"
            (some ("Raw netstat output:\n\n" ++ String.join lines)) none]
        else [])
    ++ (if 0 < (specPorts lines).length then
          [Finding.scanHostDetail "ports" (String.intercalate ", " (specPorts lines)),
           Finding.scanHostDetail "tcp_ports" (String.intercalate ", " (specPorts lines))]
        else [])

/-- Recogniser for `Netstat port` log findings. -/
def isPortLog : Finding → Bool
  | Finding.scanLog n _ _ => n == "Netstat port"
  | _ => false

/-- Recogniser for `Netstat summary` log findings. -/
def isSummaryLog : Finding → Bool
  | Finding.scanLog n _ _ => n == "Netstat summary"
  | _ => false

/-- Recogniser for `Netstat dump` log findings. -/
def isDumpLog : Finding → Bool
  | Finding.scanLog n _ _ => n == "Netstat dump"
  | _ => false

/-- Recogniser for host-detail findings. -/
def isHostDetail : Finding → Bool
  | Finding.scanHostDetail _ _ => true
  | _ => false

/-! ### Helper lemmas about `splitBy` -/

theorem splitBy_ne_nil (p : Char → Bool) (l : List Char) : splitBy p l ≠ [] := by
  cases l with
  | nil => simp [splitBy]
  | cons c cs =>
    simp only [splitBy]
    by_cases h : p c <;> simp [h]

theorem splitBy_cons_of_exists (p : Char → Bool) (l : List Char) :
    ∃ a t, splitBy p l = a :: t := by
  cases hs : splitBy p l with
  | nil => exact absurd hs (splitBy_ne_nil p l)
  | cons a t => exact ⟨a, t, rfl⟩

theorem splitBy_headD (p : Char → Bool) (l : List Char) :
    (splitBy p l).headD [] = l.takeWhile (fun c => !(p c)) := by
  induction l with
  | nil => rfl
  | cons c cs ih =>
    simp only [splitBy]
    by_cases h : p c
    · simp [h]
    · obtain ⟨a, t, hr⟩ := splitBy_cons_of_exists p cs
      rw [hr] at ih ⊢
      simp only [List.headD_cons] at ih
      simp [h, List.takeWhile_cons, ih]

theorem splitBy_get_one (p : Char → Bool) (l : List Char) (h : l.any p = true) :
    (splitBy p l)[1]? =
      some (((l.dropWhile (fun c => !(p c))).drop 1).takeWhile (fun c => !(p c))) := by
  induction l with
  | nil => simp at h
  | cons c cs ih =>
    by_cases hc : p c
    · obtain ⟨a, t, hr⟩ := splitBy_cons_of_exists p cs
      have ha : a = cs.takeWhile (fun x => !(p x)) := by
        have hh := splitBy_headD p cs
        rw [hr] at hh
        simpa using hh
      simp [splitBy, hc, hr, ha, List.dropWhile_cons]
    · have hcs : cs.any p = true := by
        simp only [List.any_cons, hc] at h
        simpa using h
      obtain ⟨a, t, hr⟩ := splitBy_cons_of_exists p cs
      have hh := ih hcs
      rw [hr] at hh
      simp only [splitBy, hc, hr]
      simp only [List.dropWhile_cons, hc]
      simpa using hh

theorem pyColonSplit_getD_zero (s : String) :
    ((pyColonSplit s)[0]?).getD "" = beforeFirstColon s := by
  unfold pyColonSplit beforeFirstColon
  obtain ⟨a, t, hr⟩ := splitBy_cons_of_exists (fun c => c == ':') s.toList
  have hh := splitBy_headD (fun c => c == ':') s.toList
  rw [hr] at hh
  simp only [List.headD_cons] at hh
  rw [hr]
  simp [hh]

theorem pyColonSplit_get_one (s : String) (h : hasColon s = true) :
    (pyColonSplit s)[1]? = some (betweenColons s) := by
  unfold hasColon at h
  unfold pyColonSplit betweenColons
  rw [List.getElem?_map, splitBy_get_one _ _ h]
  rfl

/-! ### Characterisation of the parsing loop -/

theorem parseStep_char (acc : List String) (line : String) :
    parseStep acc line =
      if lineAborts line then Except.error PyErr.indexError
      else Except.ok (acc ++ lineContrib line) := by
  unfold parseStep lineAborts lineContrib
  by_cases hg : 2 < (pyWords line).length ∧ ((pyWords line)[0]?).getD "" = "tcp"
  · rw [if_pos hg]
    cases h3 : (pyWords line)[3]? with
    | none => simp [pyIndex, h3, hg]
    | some w3 =>
      cases hp : (pyColonSplit w3)[1]? with
      | none => simp [pyIndex, h3, hp, hg]
      | some port =>
        by_cases ha : ((pyColonSplit w3)[0]?).getD "" = "0.0.0.0" <;>
          simp [pyIndex, h3, hp, hg, ha]
  · simp [pyIndex, hg]

theorem parsePortsAux_char (lines : List String) : ∀ acc : List String,
    parsePortsAux acc lines =
      if lines.any lineAborts then Except.error PyErr.indexError
      else Except.ok (acc ++ specPorts lines) := by
  induction lines with
  | nil => intro acc; simp [parsePortsAux, specPorts]
  | cons l ls ih =>
    intro acc
    rw [parsePortsAux, parseStep_char]
    by_cases hl : lineAborts l
    · simp [hl]
    · simp only [hl, if_false, Bool.false_eq_true, List.any_cons, Bool.false_or]
      rw [ih]
      by_cases hr : ls.any lineAborts <;> simp [hr, specPorts, List.append_assoc]

theorem parsePorts_char (lines : List String) :
    parsePorts lines =
      if lines.any lineAborts then Except.error PyErr.indexError
      else Except.ok (specPorts lines) := by
  rw [parsePorts, parsePortsAux_char]
  by_cases h : lines.any lineAborts <;> simp [h]

theorem exec_scan_char (options : List (String × Int)) (lines : List String) :
    exec_scan options (some lines) =
      if lines.any lineAborts then ([], Except.error PyErr.indexError)
      else (okFindings options lines, Except.ok 1) := by
  simp only [exec_scan, parsePorts_char, okFindings]
  by_cases h : lines.any lineAborts <;> simp [h]

theorem lineContrib_of_not_abort (line : String) (h : lineAborts line = false) :
    lineContrib line = if c4cond line then [portTextOf line] else [] := by
  unfold lineAborts at h
  unfold lineContrib c4cond portTextOf
  by_cases hg : 2 < (pyWords line).length ∧ ((pyWords line)[0]?).getD "" = "tcp"
  · rw [if_pos hg] at h ⊢
    obtain h3 | ⟨w3, h3⟩ := Option.eq_none_or_eq_some ((pyWords line)[3]?)
    · rw [h3] at h
      simp at h
    · rw [h3] at h ⊢
      dsimp only at h ⊢
      obtain hp | ⟨port, hp⟩ := Option.eq_none_or_eq_some ((pyColonSplit w3)[1]?)
      · rw [hp] at h
        simp at h
      · rw [hp, pyColonSplit_getD_zero w3]
        by_cases ha : beforeFirstColon w3 = "0.0.0.0" <;>
          simp [hg.1, hg.2, ha, h3, hp]
  · rw [if_neg hg]
    have hc : ¬(2 < (pyWords line).length ∧ ((pyWords line)[0]?).getD "" = "tcp" ∧
        beforeFirstColon (((pyWords line)[3]?).getD "") = "0.0.0.0") := by
      intro hcon
      exact hg ⟨hcon.1, hcon.2.1⟩
    simp [hc]

theorem specPorts_char (lines : List String) (h : lines.any lineAborts = false) :
    specPorts lines = (lines.filter c4cond).map portTextOf := by
  induction lines with
  | nil => rfl
  | cons l ls ih =>
    simp only [List.any_cons, Bool.or_eq_false_iff] at h
    simp only [specPorts, List.filter_cons]
    rw [lineContrib_of_not_abort l h.1, ih h.2]
    by_cases hc : c4cond l <;> simp [hc]

/-! ### Recogniser facts -/

theorem isPortLog_port (s : String) :
    isPortLog (Finding.scanLog "Netstat port" none (some s)) = true := rfl

theorem isPortLog_summary (v : Option String) :
    isPortLog (Finding.scanLog "Netstat summary" v none) = false := rfl

theorem isPortLog_dump (v : Option String) :
    isPortLog (Finding.scanLog "Netstat dump" v none) = false := rfl

theorem isPortLog_detail (n v : String) :
    isPortLog (Finding.scanHostDetail n v) = false := rfl

theorem isSummaryLog_summary (v : Option String) :
    isSummaryLog (Finding.scanLog "Netstat summary" v none) = true := rfl

theorem isSummaryLog_port (s : String) :
    isSummaryLog (Finding.scanLog "Netstat port" none (some s)) = false := rfl

theorem isSummaryLog_dump (v : Option String) :
    isSummaryLog (Finding.scanLog "Netstat dump" v none) = false := rfl

theorem isSummaryLog_detail (n v : String) :
    isSummaryLog (Finding.scanHostDetail n v) = false := rfl

theorem isDumpLog_summary (v : Option String) :
    isDumpLog (Finding.scanLog "Netstat summary" v none) = false := rfl

theorem isDumpLog_port (s : String) :
    isDumpLog (Finding.scanLog "Netstat port" none (some s)) = false := rfl

theorem isDumpLog_dump (v : Option String) :
    isDumpLog (Finding.scanLog "Netstat dump" v none) = true := rfl

theorem isDumpLog_detail (n v : String) :
    isDumpLog (Finding.scanHostDetail n v) = false := rfl

theorem isHostDetail_log (n : String) (v p : Option String) :
    isHostDetail (Finding.scanLog n v p) = false := rfl

theorem isHostDetail_detail (n v : String) :
    isHostDetail (Finding.scanHostDetail n v) = true := rfl

/-! ### Filtering the success-path findings -/

theorem filter_map_of_true {α β : Type} (f : α → β) (p : β → Bool) (l : List α)
    (h : ∀ a, p (f a) = true) : (l.map f).filter p = l.map f := by
  induction l with
  | nil => rfl
  | cons a t ih => simp [List.filter_cons, h a, ih]

theorem filter_map_of_false {α β : Type} (f : α → β) (p : β → Bool) (l : List α)
    (h : ∀ a, p (f a) = false) : (l.map f).filter p = [] := by
  induction l with
  | nil => rfl
  | cons a t ih => simp [List.filter_cons, h a, ih]

theorem okFindings_filter_port (options : List (String × Int)) (lines : List String) :
    (okFindings options lines).filter isPortLog =
      (specPorts lines).map (fun p => Finding.scanLog "Netstat port" none (some (p ++ "/tcp"))) := by
  unfold okFindings
  simp only [List.filter_append]
  rw [filter_map_of_true (fun p => Finding.scanLog "Netstat port" none (some (p ++ "/tcp")))
        isPortLog (specPorts lines) (fun a => isPortLog_port (a ++ "/tcp"))]
  by_cases hd : dictGet options "dumptable" = some 1 <;>
    by_cases hp : 0 < (specPorts lines).length <;>
      simp [hd, hp, List.filter_cons, isPortLog_summary, isPortLog_dump, isPortLog_detail]

theorem okFindings_filter_summary (options : List (String × Int)) (lines : List String) :
    (okFindings options lines).filter isSummaryLog =
      [Finding.scanLog "Netstat summary" (some (summaryValue (specPorts lines).length)) none] := by
  unfold okFindings
  simp only [List.filter_append]
  rw [filter_map_of_false (fun p => Finding.scanLog "Netstat port" none (some (p ++ "/tcp")))
        isSummaryLog (specPorts lines) (fun a => isSummaryLog_port (a ++ "/tcp"))]
  by_cases hd : dictGet options "dumptable" = some 1 <;>
    by_cases hp : 0 < (specPorts lines).length <;>
      simp [hd, hp, List.filter_cons, isSummaryLog_summary, isSummaryLog_dump,
            isSummaryLog_detail]

theorem okFindings_filter_dump (options : List (String × Int)) (lines : List String) :
    (okFindings options lines).filter isDumpLog =
      (if dictGet options "dumptable" = some 1 then
        [Finding.scanLog "Netstat dump"
          (some ("Raw netstat output:\n\n" ++ String.join lines)) none]
      else []) := by
  unfold okFindings
  simp only [List.filter_append]
  rw [filter_map_of_false (fun p => Finding.scanLog "Netstat port" none (some (p ++ "/tcp")))
        isDumpLog (specPorts lines) (fun a => isDumpLog_port (a ++ "/tcp"))]
  by_cases hd : dictGet options "dumptable" = some 1 <;>
    by_cases hp : 0 < (specPorts lines).length <;>
      simp [hd, hp, List.filter_cons, isDumpLog_summary, isDumpLog_dump, isDumpLog_detail]

theorem okFindings_filter_detail (options : List (String × Int)) (lines : List String) :
    (okFindings options lines).filter isHostDetail =
      (if 0 < (specPorts lines).length then
        [Finding.scanHostDetail "ports" (String.intercalate ", " (specPorts lines)),
         Finding.scanHostDetail "tcp_ports" (String.intercalate ", " (specPorts lines))]
      else []) := by
  unfold okFindings
  simp only [List.filter_append]
  rw [filter_map_of_false (fun p => Finding.scanLog "Netstat port" none (some (p ++ "/tcp")))
        isHostDetail (specPorts lines) (fun a => isHostDetail_log _ _ _)]
  by_cases hd : dictGet options "dumptable" = some 1 <;>
    by_cases hp : 0 < (specPorts lines).length <;>
      simp [hd, hp, List.filter_cons, isHostDetail_log, isHostDetail_detail]

/-! ### Claims -/

/-- C1, counterexample.  The claim says a line that does not match the
expected column shape is silently skipped and `exec_scan` still reaches
a terminal status.  In fact a line with exactly 3 whitespace-separated
fields whose first field is `"tcp"` (here `"tcp 0 0"`), and a
qualifying `"tcp"` line whose fourth field contains no colon (here
`"tcp 0 0 0.0.0.0 p"`), both raise an uncaught `IndexError`, so the
call aborts with no findings and no terminal status. -/
theorem C1_counterexample :
    (exec_scan [] (some ["tcp 0 0"])).2 = Except.error PyErr.indexError ∧
    (exec_scan [] (some ["tcp 0 0 0.0.0.0 p"])).2 = Except.error PyErr.indexError :=
  ⟨rfl, rfl⟩

/-- C1, amended.  For every options dictionary and non-`None` result:
when no line passes the candidate test (more than 2 fields, first field
`"tcp"`) while lacking a fourth field or a colon in its fourth field,
no exception is raised, every non-matching line is silently skipped,
and `exec_scan` reaches the terminal success status; but when some line
does abort, the `IndexError` escapes and no finding at all is
emitted. -/
theorem C1_theorem (options : List (String × Int)) (lines : List String) :
    exec_scan options (some lines) =
      if lines.any lineAborts then ([], Except.error PyErr.indexError)
      else (okFindings options lines, Except.ok 1) :=
  exec_scan_char options lines

/-- C2, counterexample.  The claim says every non-`None` result with
`dumptable` true yields exactly one `Netstat dump` log.  On the
non-`None` result `["tcp 0 0"]` with `dumptable = 1`, the parse loop
raises before the dump is written, so no dump log is emitted. -/
theorem C2_counterexample :
    dictGet [("dumptable", 1)] "dumptable" = some 1 ∧
    ((exec_scan [("dumptable", 1)] (some ["tcp 0 0"])).1).filter isDumpLog = [] :=
  ⟨rfl, rfl⟩

/-- C2, amended.  For every non-`None` result on which the parse loop
raises no `IndexError`: if `dumptable` is `1` then exactly one
`Netstat dump` log is emitted, whose value is the raw output
concatenated into one blob behind the fixed label
`"Raw netstat output:"`; otherwise (value `0`, any other value, or
key absent) none is emitted. -/
theorem C2_theorem (options : List (String × Int)) (lines : List String)
    (h : lines.any lineAborts = false) :
    ((exec_scan options (some lines)).1).filter isDumpLog =
      (if dictGet options "dumptable" = some 1 then
        [Finding.scanLog "Netstat dump"
          (some ("Raw netstat output:\n\n" ++ String.join lines)) none]
      else []) := by
  rw [exec_scan_char, if_neg (by simp [h])]
  exact okFindings_filter_dump options lines

theorem C2_witness :
    ((["tcp 0 0 0.0.0.0:22 0.0.0.0:* LISTEN 7/x"].any lineAborts) = false) ∧
    ((exec_scan [("dumptable", 1)]
        (some ["tcp 0 0 0.0.0.0:22 0.0.0.0:* LISTEN 7/x"])).1).filter isDumpLog =
      (if dictGet [("dumptable", 1)] "dumptable" = some 1 then
        [Finding.scanLog "Netstat dump"
          (some ("Raw netstat output:\n\n"
            ++ String.join ["tcp 0 0 0.0.0.0:22 0.0.0.0:* LISTEN 7/x"])) none]
      else []) :=
  ⟨by decide,
   C2_theorem [("dumptable", 1)] ["tcp 0 0 0.0.0.0:22 0.0.0.0:* LISTEN 7/x"] (by decide)⟩

/-- C3.  Whenever the transport result is `None`, `exec_scan` emits
exactly the two error findings, in order, and nothing else (no summary
log, no port log, no dump log, no host detail), and returns status
code 2. -/
theorem C3_theorem (options : List (String × Int)) :
    exec_scan options none =
      ([Finding.scanError "A problem occurred trying to execute 'netstat'.",
        Finding.scanError "The result of 'netstat' was empty."],
       Except.ok 2) :=
  rfl

/-- C4, counterexample.  The claim says a `PortFinding` is emitted for
a line exactly when it has more than 2 fields, first field `"tcp"`,
and the part of its fourth field before the first colon is
`"0.0.0.0"`.  The line `"tcp 0 0 0.0.0.0 p"` satisfies that condition
(its fourth field `"0.0.0.0"` has no colon, so the part before the
first colon is the whole field), yet no port log is emitted: the call
raises `IndexError` instead. -/
theorem C4_counterexample :
    c4cond "tcp 0 0 0.0.0.0 p" = true ∧
    ((exec_scan [] (some ["tcp 0 0 0.0.0.0 p"])).1).filter isPortLog = [] :=
  ⟨rfl, rfl⟩

/-- C4, amended.  For every non-`None` result on which the parse loop
raises no `IndexError`, a port log is emitted for a line if and only
if the line has more than 2 whitespace-separated fields, its first
field is exactly `"tcp"`, and the component of its fourth field before
the first colon is exactly `"0.0.0.0"`; lines bound to any other
address yield no port log. -/
theorem C4_theorem (options : List (String × Int)) (lines : List String)
    (h : lines.any lineAborts = false) :
    ((exec_scan options (some lines)).1).filter isPortLog =
      (lines.filter c4cond).map
        (fun l => Finding.scanLog "Netstat port" none (some (portTextOf l ++ "/tcp"))) := by
  rw [exec_scan_char, if_neg (by simp [h]), okFindings_filter_port, specPorts_char lines h,
      List.map_map]
  rfl

theorem C4_witness :
    ((["tcp 0 0 0.0.0.0:22 0.0.0.0:* LISTEN 7/x",
       "udp 0 0 0.0.0.0:53 0.0.0.0:* 8/y",
       "tcp 0 0 127.0.0.1:631 0.0.0.0:* LISTEN 9/z"].any lineAborts) = false) ∧
    ((exec_scan [] (some ["tcp 0 0 0.0.0.0:22 0.0.0.0:* LISTEN 7/x",
       "udp 0 0 0.0.0.0:53 0.0.0.0:* 8/y",
       "tcp 0 0 127.0.0.1:631 0.0.0.0:* LISTEN 9/z"])).1).filter isPortLog =
      (["tcp 0 0 0.0.0.0:22 0.0.0.0:* LISTEN 7/x",
       "udp 0 0 0.0.0.0:53 0.0.0.0:* 8/y",
       "tcp 0 0 127.0.0.1:631 0.0.0.0:* LISTEN 9/z"].filter c4cond).map
        (fun l => Finding.scanLog "Netstat port" none (some (portTextOf l ++ "/tcp"))) :=
  ⟨by decide,
   C4_theorem [] ["tcp 0 0 0.0.0.0:22 0.0.0.0:* LISTEN 7/x",
       "udp 0 0 0.0.0.0:53 0.0.0.0:* 8/y",
       "tcp 0 0 127.0.0.1:631 0.0.0.0:* LISTEN 9/z"] (by decide)⟩

/-- C5, counterexample.  The claim says every non-`None` result yields
exactly one `Netstat summary` log and status 1.  On `["tcp 0 0"]` the
parse loop raises before the summary is written: no summary log is
emitted and the call ends in an exception, not status 1. -/
theorem C5_counterexample :
    ((exec_scan [] (some ["tcp 0 0"])).1).filter isSummaryLog = [] ∧
    (exec_scan [] (some ["tcp 0 0"])).2 = Except.error PyErr.indexError :=
  ⟨rfl, rfl⟩

/-- C5, amended.  For every non-`None` result on which the parse loop
raises no `IndexError`, including one with zero qualifying lines,
exactly one `Netstat summary` log is emitted, stating the count of
discovered ports, and the call returns success status 1 whether or not
any port was found. -/
theorem C5_theorem (options : List (String × Int)) (lines : List String)
    (h : lines.any lineAborts = false) :
    ((exec_scan options (some lines)).1).filter isSummaryLog =
      [Finding.scanLog "Netstat summary"
        (some (summaryValue (specPorts lines).length)) none] ∧
    (exec_scan options (some lines)).2 = Except.ok 1 := by
  rw [exec_scan_char, if_neg (by simp [h])]
  exact ⟨okFindings_filter_summary options lines, rfl⟩

theorem C5_witness :
    (([] : List String).any lineAborts = false) ∧
    (((exec_scan [] (some ([] : List String))).1).filter isSummaryLog =
      [Finding.scanLog "Netstat summary"
        (some (summaryValue (specPorts ([] : List String)).length)) none] ∧
     (exec_scan [] (some ([] : List String))).2 = Except.ok 1) :=
  ⟨by decide, C5_theorem [] [] (by decide)⟩

/-- C6, counterexample.  The claim says one port log is emitted per
discovered port, in line order.  On the result below, the first line
discovers port `"22"` (the loop appends it), but the second line then
raises `IndexError`, so no port log at all is emitted. -/
theorem C6_counterexample :
    specPorts ["tcp 0 0 0.0.0.0:22 0.0.0.0:* LISTEN 1/x", "tcp 0 0"] = ["22"] ∧
    ((exec_scan []
        (some ["tcp 0 0 0.0.0.0:22 0.0.0.0:* LISTEN 1/x", "tcp 0 0"])).1).filter isPortLog
      = [] :=
  ⟨rfl, rfl⟩

/-- C6, amended.  For every non-`None` result on which the parse loop
raises no `IndexError`, the port logs emitted are exactly one per
qualifying line, formatted `"<port>/tcp"`, in the order the qualifying
lines appear, duplicates preserved (the port list `specPorts` keeps
order and multiplicity by construction). -/
theorem C6_theorem (options : List (String × Int)) (lines : List String)
    (h : lines.any lineAborts = false) :
    ((exec_scan options (some lines)).1).filter isPortLog =
      (specPorts lines).map
        (fun p => Finding.scanLog "Netstat port" none (some (p ++ "/tcp"))) := by
  rw [exec_scan_char, if_neg (by simp [h])]
  exact okFindings_filter_port options lines

theorem C6_witness :
    ((["tcp 0 0 0.0.0.0:22 a b", "tcp 0 0 0.0.0.0:80 a b",
       "tcp 0 0 0.0.0.0:22 a b"].any lineAborts) = false) ∧
    ((exec_scan [] (some ["tcp 0 0 0.0.0.0:22 a b", "tcp 0 0 0.0.0.0:80 a b",
       "tcp 0 0 0.0.0.0:22 a b"])).1).filter isPortLog =
      (specPorts ["tcp 0 0 0.0.0.0:22 a b", "tcp 0 0 0.0.0.0:80 a b",
       "tcp 0 0 0.0.0.0:22 a b"]).map
        (fun p => Finding.scanLog "Netstat port" none (some (p ++ "/tcp"))) :=
  ⟨by decide,
   C6_theorem [] ["tcp 0 0 0.0.0.0:22 a b", "tcp 0 0 0.0.0.0:80 a b",
       "tcp 0 0 0.0.0.0:22 a b"] (by decide)⟩

/-- C7, counterexample.  The claim says host details are emitted
whenever at least one port was found.  On the result below the first
line finds port `"22"`, but the second line raises `IndexError`, so no
host detail is emitted. -/
theorem C7_counterexample :
    0 < (specPorts ["tcp 0 0 0.0.0.0:22 a b", "tcp 0 0"]).length ∧
    ((exec_scan [] (some ["tcp 0 0 0.0.0.0:22 a b", "tcp 0 0"])).1).filter isHostDetail
      = [] :=
  ⟨by decide, rfl⟩

/-- C7, amended.  For every non-`None` result on which the parse loop
raises no `IndexError`, host-detail records named `ports` and
`tcp_ports`, both holding the identical comma-joined, order-preserving
port list, are emitted exactly when at least one port was found, and
no host detail is emitted when zero ports were found. -/
theorem C7_theorem (options : List (String × Int)) (lines : List String)
    (h : lines.any lineAborts = false) :
    ((exec_scan options (some lines)).1).filter isHostDetail =
      (if 0 < (specPorts lines).length then
        [Finding.scanHostDetail "ports" (String.intercalate ", " (specPorts lines)),
         Finding.scanHostDetail "tcp_ports" (String.intercalate ", " (specPorts lines))]
      else []) := by
  rw [exec_scan_char, if_neg (by simp [h])]
  exact okFindings_filter_detail options lines

theorem C7_witness :
    ((["tcp 0 0 0.0.0.0:22 a b", "tcp 0 0 0.0.0.0:80 a b"].any lineAborts) = false) ∧
    ((exec_scan [] (some ["tcp 0 0 0.0.0.0:22 a b",
        "tcp 0 0 0.0.0.0:80 a b"])).1).filter isHostDetail =
      (if 0 < (specPorts ["tcp 0 0 0.0.0.0:22 a b", "tcp 0 0 0.0.0.0:80 a b"]).length then
        [Finding.scanHostDetail "ports"
          (String.intercalate ", " (specPorts ["tcp 0 0 0.0.0.0:22 a b",
            "tcp 0 0 0.0.0.0:80 a b"])),
         Finding.scanHostDetail "tcp_ports"
          (String.intercalate ", " (specPorts ["tcp 0 0 0.0.0.0:22 a b",
            "tcp 0 0 0.0.0.0:80 a b"]))]
      else []) :=
  ⟨by decide,
   C7_theorem [] ["tcp 0 0 0.0.0.0:22 a b", "tcp 0 0 0.0.0.0:80 a b"] (by decide)⟩

/-- C8.  On the example input, exactly one port (`"22"`) is
discovered: the `tcp6` line is excluded because its first field is
`"tcp6"`, not `"tcp"`.  The call emits the summary log with count 1,
one port log `22/tcp`, host details `ports = "22"` and
`tcp_ports = "22"`, and returns 1. -/
theorem C8_theorem :
    exec_scan [] (some ["tcp 0 0 0.0.0.0:22 0.0.0.0:* LISTEN 123/sshd",
                        "tcp6 0 0 :::80 :::* LISTEN 456/nginx"]) =
      ([Finding.scanLog "Netstat summary"
          (some "Via Netstat 1 open tcp ports were found that are bound to local address 0.0.0.0.")
          none,
        Finding.scanLog "Netstat port" none (some "22/tcp"),
        Finding.scanHostDetail "ports" "22",
        Finding.scanHostDetail "tcp_ports" "22"],
       Except.ok 1) :=
  rfl

/-- C9.  For a qualifying line (first field `"tcp"`, at least four
fields, fourth field containing a colon, text before the first colon
equal to `"0.0.0.0"`), the port text emitted is exactly the segment of
the fourth field between the first and second colons (to the end of
the field when there is no second colon); characters after a second
colon are dropped, and the segment may be empty. -/
theorem C9_theorem (options : List (String × Int)) (line : String)
    (h1 : 3 < (pyWords line).length)
    (h2 : ((pyWords line)[0]?).getD "" = "tcp")
    (h3 : hasColon (((pyWords line)[3]?).getD "") = true)
    (h4 : beforeFirstColon (((pyWords line)[3]?).getD "") = "0.0.0.0") :
    ((exec_scan options (some [line])).1).filter isPortLog =
      [Finding.scanLog "Netstat port" none
        (some (betweenColons (((pyWords line)[3]?).getD "") ++ "/tcp"))] := by
  have hw3 : (pyWords line)[3]? = some (((pyWords line)[3]?).getD "") := by
    rw [List.getElem?_eq_getElem h1]
    rfl
  have hguard : 2 < (pyWords line).length ∧ ((pyWords line)[0]?).getD "" = "tcp" :=
    ⟨Nat.lt_trans (by decide) h1, h2⟩
  have habort : lineAborts line = false := by
    unfold lineAborts
    rw [if_pos hguard, hw3]
    dsimp only
    rw [pyColonSplit_get_one _ h3]
    rfl
  have hcontrib : lineContrib line = [betweenColons (((pyWords line)[3]?).getD "")] := by
    unfold lineContrib
    rw [if_pos hguard, hw3]
    dsimp only
    rw [pyColonSplit_getD_zero, pyColonSplit_get_one _ h3]
    dsimp only
    rw [if_pos h4]
    rfl
  rw [exec_scan_char, if_neg (by simp [habort]), okFindings_filter_port]
  simp [specPorts, hcontrib]

theorem C9_witness :
    3 < (pyWords "tcp 0 0 0.0.0.0:22:extra 0.0.0.0:* LISTEN 9/z").length ∧
    ((pyWords "tcp 0 0 0.0.0.0:22:extra 0.0.0.0:* LISTEN 9/z")[0]?).getD "" = "tcp" ∧
    hasColon (((pyWords "tcp 0 0 0.0.0.0:22:extra 0.0.0.0:* LISTEN 9/z")[3]?).getD "")
      = true ∧
    beforeFirstColon
      (((pyWords "tcp 0 0 0.0.0.0:22:extra 0.0.0.0:* LISTEN 9/z")[3]?).getD "")
      = "0.0.0.0" ∧
    ((exec_scan [] (some ["tcp 0 0 0.0.0.0:22:extra 0.0.0.0:* LISTEN 9/z"])).1).filter
        isPortLog =
      [Finding.scanLog "Netstat port" none
        (some (betweenColons
          (((pyWords "tcp 0 0 0.0.0.0:22:extra 0.0.0.0:* LISTEN 9/z")[3]?).getD "")
          ++ "/tcp"))] :=
  ⟨by decide, by decide, by decide, by decide,
   C9_theorem [] "tcp 0 0 0.0.0.0:22:extra 0.0.0.0:* LISTEN 9/z"
     (by decide) (by decide) (by decide) (by decide)⟩

/-- C10.  The availability probe returns `True` for every daemon
state: per-target tool availability cannot be determined upfront, so
the probe is unconditional. -/
theorem C10_theorem : ∀ (α : Type) (self : α), OSPDnetstat.check self = true :=
  fun _ _ => rfl
